import Mathlib

set_option maxHeartbeats 1000000

/-!
Shallow embedding of `cmd/server/workflowtemplate/workflow_template_server.go`
(the WorkflowTemplateServer of the argo server): per-request client
resolution (`GetWFClient`) and the five template-service operations
(Create, Get, List, Delete, Lint).

External collaborators (k8s rest.Config unmarshalling, clientset
constructors, the validate package, and the backend template store) are
modelled from the spec's collaborator interfaces as parameters (`Env`) or
as an explicit store value (`Store`); the control flow of the server file
itself is embedded statement by statement.
-/

/-- Connection descriptor: the k8s `rest.Config` as the core uses it — a
serialized cluster-access configuration (host stands for the
endpoint/TLS material) plus the `BearerToken` field. -/
structure RestConfig where
  host : String
  bearerToken : String
deriving DecidableEq, Repr

/-- A workflow template resource: a named definition whose structure the
core never inspects. -/
structure WorkflowTemplate where
  name : String
  content : String
deriving DecidableEq, Repr

/-- A clientset value: either one of the process-wide shared clientsets
(identified by an id) or a per-request clientset carrying the
`RestConfig` it was constructed from. -/
inductive Client where
  | proc (id : Nat)
  | perRequest (cfg : RestConfig)
deriving DecidableEq, Repr

/-- The gRPC incoming-context metadata: the value lists behind the
`CLIENT_REST_CONFIG` and `AUTH_TOKEN` keys (`md.Get` returns a list of
strings; an absent key yields the empty list, as does a nil metadata). -/
structure Metadata where
  clientRestConfig : List String
  authToken : List String
deriving DecidableEq, Repr

/-- The backend template store, keyed by namespace: the list of
(namespace, template) pairs in backend order.
Modelled from the spec: the backend resource store collaborator
(`create/get/list/delete` keyed by namespace + name) is external to the
given source file. -/
abbrev Store : Type := List (String × WorkflowTemplate)

/-- External collaborator behaviours consumed by the core:
`unmarshal` is `json.Unmarshal` into a `rest.Config`; `wfCtor` and
`kubeCtor` are the failure behaviours of `wfclientset.NewForConfig` and
`kubernetes.NewForConfig` (`some e` means construction fails with error
`e`); `validate` is `validate.ValidateWorkflowTemplate` given the
read-only template-getter capability (the store and namespace it wraps)
and the template pointer (`none` = nil), returning `some e` on
rejection; `createErr` is the failure behaviour of the backend
`create(namespace, template)` call (`some e` means the backend rejects
the create — `BackendUnavailable` and the like — leaving the store
unchanged). -/
structure Env where
  unmarshal : String → Except String RestConfig
  wfCtor : RestConfig → Option String
  kubeCtor : RestConfig → Option String
  validate : Store → String → Option WorkflowTemplate → Option String
  createErr : Store → String → WorkflowTemplate → Option String

/-- The server struct: configured default namespace (Go field
`namespace`), the process-wide shared clientsets, and the
`enableClientAuth` flag. -/
structure WorkflowTemplateServer where
  defaultNamespace : String
  wfClientset : Client
  kubeClientset : Client
  enableClientAuth : Bool
deriving DecidableEq, Repr

/-- Rendering of a `RestConfig` by Go's default struct formatting verb
(field names and values), as produced by the log format argument for the
descriptor. -/
def formatRestConfig (rc : RestConfig) : String :=
  "\x7bHost:" ++ rc.host ++ " BearerToken:" ++ rc.bearerToken ++ "\x7d"

/-- The diagnostic log line emitted when the wf clientset constructor
fails (Go: log.Errorf with the rest.Config formatted by the default
struct verb and the error). -/
def wfClientsetLogEntry (rc : RestConfig) (e : String) : String :=
  "Failure to create wfClientset with ClientConfig " ++ formatRestConfig rc ++ ": " ++ e

/-- The diagnostic log line emitted when the kube clientset constructor
fails. -/
def kubeClientsetLogEntry (rc : RestConfig) (e : String) : String :=
  "Failure to create kubeClientset with ClientConfig " ++ formatRestConfig rc ++ ": " ++ e

deriving instance DecidableEq for Except

/-- Result of `GetWFClient`: the client pair or the error, the diagnostic
log lines emitted during the call, and the server value after the call
(threaded to make the absence of mutation provable). -/
structure ClientResult where
  clients : Except String (Client × Client)
  logs : List String
  server : WorkflowTemplateServer
deriving DecidableEq, Repr

/-- Lines 61-73 of the source: construct the wf clientset and then the
kube clientset from the (token-overwritten) descriptor, logging the
descriptor on either failure and returning the error; on success return
the freshly constructed pair. -/
def constructClients (env : Env) (restConfig : RestConfig) (s : WorkflowTemplateServer) : ClientResult :=
  match env.wfCtor restConfig with
  | some e => ⟨.error e, [wfClientsetLogEntry restConfig e], s⟩
  | none =>
    match env.kubeCtor restConfig with
    | some e => ⟨.error e, [kubeClientsetLogEntry restConfig e], s⟩
    | none => ⟨.ok (.perRequest restConfig, .perRequest restConfig), [], s⟩

/-- Lines 42-50 of the source: `var bearerToken string` (zero value "")
followed by the conditional assignment from the first `AUTH_TOKEN`
metadata value when one is present. -/
def bearerFromMd (md : Metadata) : String :=
  match md.authToken with
  | [] => ""
  | tok :: _ => tok

/-- `GetWFClient`: if `enableClientAuth` is false, return the stored
process-wide pair; otherwise require the `CLIENT_REST_CONFIG` metadata
entry (error "Client kubeconfig is not found" when absent), read the
optional `AUTH_TOKEN` entry (empty string when absent), unmarshal the
blob, unconditionally overwrite the descriptor's `BearerToken` with the
read token, and construct both clients from the result. -/
def GetWFClient (s : WorkflowTemplateServer) (env : Env) (md : Metadata) : ClientResult :=
  match s.enableClientAuth with
  | false => ⟨.ok (s.wfClientset, s.kubeClientset), [], s⟩
  | true =>
    match md.clientRestConfig with
    | [] => ⟨.error "Client kubeconfig is not found", [], s⟩
    | restConfigStr :: _ =>
      match env.unmarshal restConfigStr with
      | .error e => ⟨.error e, [], s⟩
      | .ok parsed => constructClients env { parsed with bearerToken := bearerFromMd md } s

/-- Create/Lint request: optional namespace (Go field `Namespace`, empty
string when absent) and the template pointer (Go `*WorkflowTemplate`,
`none` = nil). -/
structure WorkflowTemplateCreateRequest where
  namespaceField : String
  template : Option WorkflowTemplate
deriving DecidableEq, Repr

/-- Get request: optional namespace and the template name. -/
structure WorkflowTemplateGetRequest where
  namespaceField : String
  templateName : String
deriving DecidableEq, Repr

/-- List request: optional namespace. -/
structure WorkflowTemplateListRequest where
  namespaceField : String
deriving DecidableEq, Repr

/-- Delete request: optional namespace and the template name. -/
structure WorkflowTemplateDeleteRequest where
  namespaceField : String
  templateName : String
deriving DecidableEq, Repr

/-- Delete acknowledgement DTO: the deleted name and the fixed status
marker. -/
structure WorkflowDeleteResponse where
  templateName : String
  status : String
deriving DecidableEq, Repr

/-- A call issued by an operation against its collaborators: the
validation-collaborator invocation and the four backend calls, each
recording the namespace it was issued against. -/
inductive Event where
  | validateCall (ns : String) (tmpl : Option WorkflowTemplate)
  | createCall (ns : String) (tmpl : WorkflowTemplate)
  | getCall (ns : String) (tmplName : String)
  | listCall (ns : String)
  | deleteCall (ns : String) (tmplName : String)
deriving DecidableEq, Repr

/-- The namespace a collaborator call was issued against. -/
def eventNs : Event → String
  | .validateCall ns _ => ns
  | .createCall ns _ => ns
  | .getCall ns _ => ns
  | .listCall ns => ns
  | .deleteCall ns _ => ns

/-- Whether a collaborator call writes to the backend store. -/
def isWriteEvent : Event → Bool
  | .createCall _ _ => true
  | .deleteCall _ _ => true
  | _ => false

/-- Modelled from the spec: backend `create(namespace, template)` returns
the stored object or an error. The failure case is the collaborator's
choice (`env.createErr`) and leaves the store unchanged; on success the
template is appended to the namespace's collection and returned as the
stored object. -/
def storeCreate (env : Env) (st : Store) (ns : String) (tmpl : WorkflowTemplate) :
    Except String (WorkflowTemplate × Store) :=
  match env.createErr st ns tmpl with
  | some e => .error e
  | none => .ok (tmpl, st ++ [(ns, tmpl)])

/-- Modelled from the spec: backend `get(namespace, name)` returns the
stored object or a NotFound error. -/
def storeGet (st : Store) (ns : String) (tmplName : String) : Except String WorkflowTemplate :=
  match st.find? (fun p => p.1 == ns && p.2.name == tmplName) with
  | some p => .ok p.2
  | none => .error "NotFound"

/-- Modelled from the spec: backend `list(namespace)` returns the
namespace's templates in backend order. -/
def storeList (st : Store) (ns : String) : List WorkflowTemplate :=
  (st.filter (fun p => p.1 == ns)).map (fun p => p.2)

/-- Modelled from the spec: backend `delete(namespace, name)` removes the
named template or fails with NotFound. -/
def storeDelete (st : Store) (ns : String) (tmplName : String) : Except String Store :=
  match st.find? (fun p => p.1 == ns && p.2.name == tmplName) with
  | some _ => .ok (st.filter (fun p => !(p.1 == ns && p.2.name == tmplName)))
  | none => .error "NotFound"

/-- Result of one template-service operation: the typed response or
error, the collaborator calls issued (in order), the diagnostic log
lines, the backend store after the call, and the server value after the
call. -/
structure OpResult (α : Type) where
  result : Except String α
  events : List Event
  logs : List String
  store : Store
  server : WorkflowTemplateServer

/-- `CreateWorkflowTemplate`: resolve clients, resolve the effective
namespace (request override else server default), reject a nil template
body, validate against the namespace-scoped getter, then create; the
validation error is wrapped, a backend create error is propagated
unchanged (lines 97-99 of the source), and the backend's stored object
is returned unchanged on success. -/
def CreateWorkflowTemplate (s : WorkflowTemplateServer) (env : Env) (md : Metadata)
    (st : Store) (req : WorkflowTemplateCreateRequest) : OpResult WorkflowTemplate :=
  match GetWFClient s env md with
  | ⟨.error e, logs, s1⟩ => ⟨.error e, [], logs, st, s1⟩
  | ⟨.ok _clients, logs, s1⟩ =>
    let ns := if req.namespaceField ≠ "" then req.namespaceField else s1.defaultNamespace
    match req.template with
    | none => ⟨.error "WorkflowTemplate is not found in Request body", [], logs, st, s1⟩
    | some tmpl =>
      match env.validate st ns (some tmpl) with
      | some e => ⟨.error ("Failed to create workflow template: " ++ e),
          [.validateCall ns (some tmpl)], logs, st, s1⟩
      | none =>
        match storeCreate env st ns tmpl with
        | .error e =>
          ⟨.error e, [.validateCall ns (some tmpl), .createCall ns tmpl], logs, st, s1⟩
        | .ok created =>
          ⟨.ok created.1, [.validateCall ns (some tmpl), .createCall ns tmpl], logs, created.2, s1⟩

/-- `GetWorkflowTemplate`: resolve clients, resolve the effective
namespace, fetch by name; errors propagate unchanged. -/
def GetWorkflowTemplate (s : WorkflowTemplateServer) (env : Env) (md : Metadata)
    (st : Store) (req : WorkflowTemplateGetRequest) : OpResult WorkflowTemplate :=
  match GetWFClient s env md with
  | ⟨.error e, logs, s1⟩ => ⟨.error e, [], logs, st, s1⟩
  | ⟨.ok _clients, logs, s1⟩ =>
    let ns := if req.namespaceField ≠ "" then req.namespaceField else s1.defaultNamespace
    match storeGet st ns req.templateName with
    | .error e => ⟨.error e, [.getCall ns req.templateName], logs, st, s1⟩
    | .ok tmpl => ⟨.ok tmpl, [.getCall ns req.templateName], logs, st, s1⟩

/-- `ListWorkflowTemplates`: resolve clients, resolve the effective
namespace, list the namespace's templates. -/
def ListWorkflowTemplates (s : WorkflowTemplateServer) (env : Env) (md : Metadata)
    (st : Store) (req : WorkflowTemplateListRequest) : OpResult (List WorkflowTemplate) :=
  match GetWFClient s env md with
  | ⟨.error e, logs, s1⟩ => ⟨.error e, [], logs, st, s1⟩
  | ⟨.ok _clients, logs, s1⟩ =>
    let ns := if req.namespaceField ≠ "" then req.namespaceField else s1.defaultNamespace
    ⟨.ok (storeList st ns), [.listCall ns], logs, st, s1⟩

/-- `DeleteWorkflowTemplate`: resolve clients, resolve the effective
namespace, delete by name; on success return the acknowledgement DTO
with the fixed "Deleted" status. -/
def DeleteWorkflowTemplate (s : WorkflowTemplateServer) (env : Env) (md : Metadata)
    (st : Store) (req : WorkflowTemplateDeleteRequest) : OpResult WorkflowDeleteResponse :=
  match GetWFClient s env md with
  | ⟨.error e, logs, s1⟩ => ⟨.error e, [], logs, st, s1⟩
  | ⟨.ok _clients, logs, s1⟩ =>
    let ns := if req.namespaceField ≠ "" then req.namespaceField else s1.defaultNamespace
    match storeDelete st ns req.templateName with
    | .error e => ⟨.error e, [.deleteCall ns req.templateName], logs, st, s1⟩
    | .ok st1 => ⟨.ok ⟨req.templateName, "Deleted"⟩, [.deleteCall ns req.templateName], logs, st1, s1⟩

/-- `LintWorkflowTemplate`: resolve clients, resolve the effective
namespace, validate the request's template pointer directly (there is no
nil-body check here, unlike Create), and on success return the request's
template pointer unchanged; no backend write is issued. -/
def LintWorkflowTemplate (s : WorkflowTemplateServer) (env : Env) (md : Metadata)
    (st : Store) (req : WorkflowTemplateCreateRequest) : OpResult (Option WorkflowTemplate) :=
  match GetWFClient s env md with
  | ⟨.error e, logs, s1⟩ => ⟨.error e, [], logs, st, s1⟩
  | ⟨.ok _clients, logs, s1⟩ =>
    let ns := if req.namespaceField ≠ "" then req.namespaceField else s1.defaultNamespace
    match env.validate st ns req.template with
    | some e => ⟨.error e, [.validateCall ns req.template], logs, st, s1⟩
    | none => ⟨.ok req.template, [.validateCall ns req.template], logs, st, s1⟩

/-- Whether the first list of characters is an initial segment of the
second. -/
def charsStartWith : List Char → List Char → Bool
  | [], _ => true
  | _ :: _, [] => false
  | a :: as, b :: bs => a == b && charsStartWith as bs

/-- Whether the first list of characters occurs contiguously inside the
second. -/
def charsContain (needle : List Char) : List Char → Bool
  | [] => charsStartWith needle []
  | c :: cs => charsStartWith needle (c :: cs) || charsContain needle cs

/-- Whether `needle` occurs as a contiguous substring of `hay`. -/
def strContains (hay needle : String) : Bool :=
  charsContain needle.toList hay.toList

/-- Fixture: a server in per-request-auth mode. -/
def sAuth : WorkflowTemplateServer := ⟨"default", .proc 0, .proc 1, true⟩

/-- Fixture: a server with per-request auth disabled. -/
def sNoAuth : WorkflowTemplateServer := ⟨"default", .proc 0, .proc 1, false⟩

/-- Fixture: collaborators where the blob "blob" parses to a descriptor
with an embedded token, both constructors succeed, validation accepts
every template, and the backend create succeeds. -/
def envOk : Env :=
  { unmarshal := fun str =>
      if str = "blob" then .ok ⟨"https://example.test", "embedded-token"⟩
      else .error "invalid character",
    wfCtor := fun _ => none,
    kubeCtor := fun _ => none,
    validate := fun _ _ _ => none,
    createErr := fun _ _ _ => none }

/-- Fixture: like `envOk` but the wf clientset constructor fails. -/
def envCtorFail : Env :=
  { unmarshal := fun str =>
      if str = "blob" then .ok ⟨"https://example.test", "embedded-token"⟩
      else .error "invalid character",
    wfCtor := fun _ => some "connection refused",
    kubeCtor := fun _ => none,
    validate := fun _ _ _ => none,
    createErr := fun _ _ _ => none }

/-- Fixture: metadata carrying the blob and a bearer token. -/
def mdTok : Metadata := ⟨["blob"], ["secret-token"]⟩

/-- Fixture: metadata carrying the blob and no bearer token. -/
def mdNoTok : Metadata := ⟨["blob"], []⟩

/-- Fixture: a create/lint request with no namespace and a nil template
pointer. -/
def reqNil : WorkflowTemplateCreateRequest := ⟨"", none⟩

theorem getWFClient_server_eq (s : WorkflowTemplateServer) (env : Env) (md : Metadata) :
    (GetWFClient s env md).server = s := by
  unfold GetWFClient constructClients
  repeat' split
  all_goals rfl

/-- C1: when `enableClientAuth` is false, `GetWFClient` returns the
server's stored `wfClientset` and `kubeClientset` with no error and no
log output, for every collaborator behaviour and every metadata
(connection blobs and bearer tokens included). -/
theorem wfclient_shared_pair_when_auth_disabled
    (dns : String) (wf kube : Client) (env : Env) (md : Metadata) :
    GetWFClient ⟨dns, wf, kube, false⟩ env md =
      ⟨.ok (wf, kube), [], ⟨dns, wf, kube, false⟩⟩ := rfl

/-- C2: in per-request-auth mode, when the metadata carries a parseable
connection blob and a bearer token, the rest of `GetWFClient` runs on the
descriptor whose `bearerToken` field is the attached token — the token
embedded in the blob is discarded, so both clients are constructed from
the overridden descriptor. -/
theorem wfclient_bearer_token_overrides_blob
    (s : WorkflowTemplateServer) (env : Env) (md : Metadata)
    (cfgStr : String) (l1 : List String) (cfg : RestConfig) (tok : String) (l2 : List String)
    (hauth : s.enableClientAuth = true)
    (hcfg : md.clientRestConfig = cfgStr :: l1)
    (hparse : env.unmarshal cfgStr = .ok cfg)
    (htok : md.authToken = tok :: l2) :
    GetWFClient s env md = constructClients env { cfg with bearerToken := tok } s ∧
      (RestConfig.mk cfg.host tok).bearerToken = tok := by
  refine ⟨?_, rfl⟩
  have hb : bearerFromMd md = tok := by unfold bearerFromMd; rw [htok]
  simp only [GetWFClient, hauth, hcfg, hparse, hb]

/-- Witness for C2 at a concrete input. -/
theorem wfclient_bearer_token_overrides_blob_witness :
    GetWFClient sAuth envOk mdTok =
      constructClients envOk ⟨"https://example.test", "secret-token"⟩ sAuth ∧
      (RestConfig.mk "https://example.test" "secret-token").bearerToken = "secret-token" :=
  wfclient_bearer_token_overrides_blob sAuth envOk mdTok "blob" []
    ⟨"https://example.test", "embedded-token"⟩ "secret-token" [] rfl rfl rfl rfl

/-- C9: in per-request-auth mode, when the metadata carries a parseable
connection blob but no bearer token, the descriptor's `bearerToken` is
overwritten with the empty string — the overwrite is unconditional, so a
token embedded in the blob is erased. -/
theorem wfclient_token_cleared_when_absent
    (s : WorkflowTemplateServer) (env : Env) (md : Metadata)
    (cfgStr : String) (l1 : List String) (cfg : RestConfig)
    (hauth : s.enableClientAuth = true)
    (hcfg : md.clientRestConfig = cfgStr :: l1)
    (hparse : env.unmarshal cfgStr = .ok cfg)
    (htok : md.authToken = []) :
    GetWFClient s env md = constructClients env { cfg with bearerToken := "" } s ∧
      (RestConfig.mk cfg.host "").bearerToken = "" := by
  refine ⟨?_, rfl⟩
  have hb : bearerFromMd md = "" := by unfold bearerFromMd; rw [htok]
  simp only [GetWFClient, hauth, hcfg, hparse, hb]

/-- Witness for C9 at a concrete input. -/
theorem wfclient_token_cleared_when_absent_witness :
    GetWFClient sAuth envOk mdNoTok =
      constructClients envOk ⟨"https://example.test", ""⟩ sAuth ∧
      (RestConfig.mk "https://example.test" "").bearerToken = "" :=
  wfclient_token_cleared_when_absent sAuth envOk mdNoTok "blob" []
    ⟨"https://example.test", "embedded-token"⟩ rfl rfl rfl rfl

/-- C3 (code behaviour at the failing input): in per-request-auth mode
with a parseable blob, an attached bearer token "secret-token", and a
failing wf-clientset constructor, `GetWFClient` emits exactly one
diagnostic log line — the descriptor rendered with its `BearerToken`
field — and that line contains the bearer token verbatim: the token is
not redacted from the logged descriptor. -/
theorem wfclient_ctor_failure_logs_bearer_token :
    (GetWFClient sAuth envCtorFail mdTok).clients = .error "connection refused" ∧
    (GetWFClient sAuth envCtorFail mdTok).logs =
      [wfClientsetLogEntry ⟨"https://example.test", "secret-token"⟩ "connection refused"] ∧
    strContains (wfClientsetLogEntry ⟨"https://example.test", "secret-token"⟩ "connection refused")
      "secret-token" = true := by
  refine ⟨rfl, rfl, ?_⟩
  decide

/-- C4 (code behaviour at the failing input): with the same collaborator
behaviour (a validator that accepts everything, nil templates included)
and the same effective namespace, a request whose template pointer is
nil is rejected by `CreateWorkflowTemplate` (error "WorkflowTemplate is
not found in Request body") but accepted by `LintWorkflowTemplate`,
which skips Create's nil-body precondition check and returns the nil
pointer: the two operations do not reject the same request set. -/
theorem create_lint_divergence_on_nil_template :
    (CreateWorkflowTemplate sNoAuth envOk mdTok [] reqNil).result =
      .error "WorkflowTemplate is not found in Request body" ∧
    (LintWorkflowTemplate sNoAuth envOk mdTok [] reqNil).result = .ok none := ⟨rfl, rfl⟩

theorem createWorkflowTemplate_server_eq (s : WorkflowTemplateServer) (env : Env)
    (md : Metadata) (st : Store) (req : WorkflowTemplateCreateRequest) :
    (CreateWorkflowTemplate s env md st req).server = s := by
  have hs := getWFClient_server_eq s env md
  unfold CreateWorkflowTemplate
  rcases h : GetWFClient s env md with ⟨cls, lgs, srv⟩
  rw [h] at hs
  cases cls
  · exact hs
  · dsimp only
    repeat' split
    all_goals exact hs

theorem getWorkflowTemplate_server_eq (s : WorkflowTemplateServer) (env : Env)
    (md : Metadata) (st : Store) (req : WorkflowTemplateGetRequest) :
    (GetWorkflowTemplate s env md st req).server = s := by
  have hs := getWFClient_server_eq s env md
  unfold GetWorkflowTemplate
  rcases h : GetWFClient s env md with ⟨cls, lgs, srv⟩
  rw [h] at hs
  cases cls
  · exact hs
  · dsimp only
    repeat' split
    all_goals exact hs

theorem listWorkflowTemplates_server_eq (s : WorkflowTemplateServer) (env : Env)
    (md : Metadata) (st : Store) (req : WorkflowTemplateListRequest) :
    (ListWorkflowTemplates s env md st req).server = s := by
  have hs := getWFClient_server_eq s env md
  unfold ListWorkflowTemplates
  rcases h : GetWFClient s env md with ⟨cls, lgs, srv⟩
  rw [h] at hs
  cases cls
  · exact hs
  · exact hs

theorem deleteWorkflowTemplate_server_eq (s : WorkflowTemplateServer) (env : Env)
    (md : Metadata) (st : Store) (req : WorkflowTemplateDeleteRequest) :
    (DeleteWorkflowTemplate s env md st req).server = s := by
  have hs := getWFClient_server_eq s env md
  unfold DeleteWorkflowTemplate
  rcases h : GetWFClient s env md with ⟨cls, lgs, srv⟩
  rw [h] at hs
  cases cls
  · exact hs
  · dsimp only
    repeat' split
    all_goals exact hs

theorem lintWorkflowTemplate_server_eq (s : WorkflowTemplateServer) (env : Env)
    (md : Metadata) (st : Store) (req : WorkflowTemplateCreateRequest) :
    (LintWorkflowTemplate s env md st req).server = s := by
  have hs := getWFClient_server_eq s env md
  unfold LintWorkflowTemplate
  rcases h : GetWFClient s env md with ⟨cls, lgs, srv⟩
  rw [h] at hs
  cases cls
  · exact hs
  · dsimp only
    repeat' split
    all_goals exact hs

/-- C10: every operation leaves the server value — configured default
namespace, process-wide clientsets and the `enableClientAuth` flag —
exactly as it was, for every input and on every success and error
path. -/
theorem server_state_unchanged_by_all_operations
    (s : WorkflowTemplateServer) (env : Env) (md : Metadata) (st : Store)
    (reqC : WorkflowTemplateCreateRequest) (reqG : WorkflowTemplateGetRequest)
    (reqL : WorkflowTemplateListRequest) (reqD : WorkflowTemplateDeleteRequest)
    (reqT : WorkflowTemplateCreateRequest) :
    (GetWFClient s env md).server = s ∧
    (CreateWorkflowTemplate s env md st reqC).server = s ∧
    (GetWorkflowTemplate s env md st reqG).server = s ∧
    (ListWorkflowTemplates s env md st reqL).server = s ∧
    (DeleteWorkflowTemplate s env md st reqD).server = s ∧
    (LintWorkflowTemplate s env md st reqT).server = s :=
  ⟨getWFClient_server_eq s env md,
   createWorkflowTemplate_server_eq s env md st reqC,
   getWorkflowTemplate_server_eq s env md st reqG,
   listWorkflowTemplates_server_eq s env md st reqL,
   deleteWorkflowTemplate_server_eq s env md st reqD,
   lintWorkflowTemplate_server_eq s env md st reqT⟩

/-- C5: every collaborator call (validation and backend alike) issued by
any of the five operations is issued against the effective namespace
computed by the uniform override-else-default rule: the request's
namespace field when non-empty, the server's configured default
otherwise. -/
theorem namespace_override_else_default_uniform
    (s : WorkflowTemplateServer) (env : Env) (md : Metadata) (st : Store)
    (reqC : WorkflowTemplateCreateRequest) (reqG : WorkflowTemplateGetRequest)
    (reqL : WorkflowTemplateListRequest) (reqD : WorkflowTemplateDeleteRequest)
    (reqT : WorkflowTemplateCreateRequest) :
    ((CreateWorkflowTemplate s env md st reqC).events.all fun e =>
      eventNs e == if reqC.namespaceField ≠ "" then reqC.namespaceField else s.defaultNamespace) = true ∧
    ((GetWorkflowTemplate s env md st reqG).events.all fun e =>
      eventNs e == if reqG.namespaceField ≠ "" then reqG.namespaceField else s.defaultNamespace) = true ∧
    ((ListWorkflowTemplates s env md st reqL).events.all fun e =>
      eventNs e == if reqL.namespaceField ≠ "" then reqL.namespaceField else s.defaultNamespace) = true ∧
    ((DeleteWorkflowTemplate s env md st reqD).events.all fun e =>
      eventNs e == if reqD.namespaceField ≠ "" then reqD.namespaceField else s.defaultNamespace) = true ∧
    ((LintWorkflowTemplate s env md st reqT).events.all fun e =>
      eventNs e == if reqT.namespaceField ≠ "" then reqT.namespaceField else s.defaultNamespace) = true := by
  refine ⟨?_, ?_, ?_, ?_, ?_⟩
  · have hs := getWFClient_server_eq s env md
    unfold CreateWorkflowTemplate
    rcases h : GetWFClient s env md with ⟨cls, lgs, srv⟩
    rw [h] at hs
    have hsrv : srv = s := hs
    subst hsrv
    cases cls
    · rfl
    · dsimp only
      repeat' split
      all_goals simp [eventNs]
  · have hs := getWFClient_server_eq s env md
    unfold GetWorkflowTemplate
    rcases h : GetWFClient s env md with ⟨cls, lgs, srv⟩
    rw [h] at hs
    have hsrv : srv = s := hs
    subst hsrv
    cases cls
    · rfl
    · dsimp only
      repeat' split
      all_goals simp [eventNs]
  · have hs := getWFClient_server_eq s env md
    unfold ListWorkflowTemplates
    rcases h : GetWFClient s env md with ⟨cls, lgs, srv⟩
    rw [h] at hs
    have hsrv : srv = s := hs
    subst hsrv
    cases cls
    · rfl
    · simp [eventNs]
  · have hs := getWFClient_server_eq s env md
    unfold DeleteWorkflowTemplate
    rcases h : GetWFClient s env md with ⟨cls, lgs, srv⟩
    rw [h] at hs
    have hsrv : srv = s := hs
    subst hsrv
    cases cls
    · rfl
    · dsimp only
      repeat' split
      all_goals simp [eventNs]
  · have hs := getWFClient_server_eq s env md
    unfold LintWorkflowTemplate
    rcases h : GetWFClient s env md with ⟨cls, lgs, srv⟩
    rw [h] at hs
    have hsrv : srv = s := hs
    subst hsrv
    cases cls
    · rfl
    · dsimp only
      repeat' split
      all_goals simp [eventNs]

/-- C6: every run of `CreateWorkflowTemplate` is one of exactly four
shapes: it fails before any collaborator call with the store untouched;
or the validation collaborator is invoked, rejects the template, and
Create fails with the wrapped validation error, no create call issued
and the store untouched; or validation is invoked first, accepts, the
backend create is then issued and fails, the backend error propagating
unchanged with the store untouched; or validation is invoked first,
accepts, and the backend create succeeds and persists. In every shape
where the backend create is invoked, the validation collaborator was
invoked before it and accepted, and the store only ever changes after a
successful validation. -/
theorem create_validates_before_persisting
    (s : WorkflowTemplateServer) (env : Env) (md : Metadata) (st : Store)
    (req : WorkflowTemplateCreateRequest) :
    ((CreateWorkflowTemplate s env md st req).events = [] ∧
      (CreateWorkflowTemplate s env md st req).store = st ∧
      ∃ e, (CreateWorkflowTemplate s env md st req).result = .error e) ∨
    (∃ ns tmpl e, req.template = some tmpl ∧
      env.validate st ns (some tmpl) = some e ∧
      (CreateWorkflowTemplate s env md st req).events = [.validateCall ns (some tmpl)] ∧
      (CreateWorkflowTemplate s env md st req).store = st ∧
      (CreateWorkflowTemplate s env md st req).result =
        .error ("Failed to create workflow template: " ++ e)) ∨
    (∃ ns tmpl e, req.template = some tmpl ∧
      env.validate st ns (some tmpl) = none ∧
      env.createErr st ns tmpl = some e ∧
      (CreateWorkflowTemplate s env md st req).events =
        [.validateCall ns (some tmpl), .createCall ns tmpl] ∧
      (CreateWorkflowTemplate s env md st req).store = st ∧
      (CreateWorkflowTemplate s env md st req).result = .error e) ∨
    (∃ ns tmpl, req.template = some tmpl ∧
      env.validate st ns (some tmpl) = none ∧
      env.createErr st ns tmpl = none ∧
      (CreateWorkflowTemplate s env md st req).events =
        [.validateCall ns (some tmpl), .createCall ns tmpl] ∧
      (CreateWorkflowTemplate s env md st req).store = st ++ [(ns, tmpl)] ∧
      (CreateWorkflowTemplate s env md st req).result = .ok tmpl) := by
  have hs := getWFClient_server_eq s env md
  unfold CreateWorkflowTemplate
  rcases h : GetWFClient s env md with ⟨cls, lgs, srv⟩
  rw [h] at hs
  have hsrv : s = srv := hs.symm
  subst hsrv
  cases cls with
  | error e => exact .inl ⟨rfl, rfl, e, rfl⟩
  | ok pr =>
    dsimp only
    rcases ht : req.template with _ | tmpl
    · exact .inl ⟨rfl, rfl, _, rfl⟩
    · dsimp only
      rcases hv : env.validate st
          (if req.namespaceField ≠ "" then req.namespaceField else s.defaultNamespace)
          (some tmpl) with _ | e
      · unfold storeCreate
        rcases hc : env.createErr st
            (if req.namespaceField ≠ "" then req.namespaceField else s.defaultNamespace)
            tmpl with _ | e
        · exact .inr (.inr (.inr ⟨_, tmpl, rfl, hv, hc, rfl, rfl, rfl⟩))
        · exact .inr (.inr (.inl ⟨_, tmpl, e, rfl, hv, hc, rfl, rfl, rfl⟩))
      · exact .inr (.inl ⟨_, tmpl, e, rfl, hv, rfl, rfl, rfl⟩)

/-- C7: in per-request-auth mode with no `CLIENT_REST_CONFIG` metadata
entry, `GetWFClient` fails with the missing-kubeconfig error and no
client pair, and every one of the five operations returns that error
verbatim, issues no collaborator call, and leaves the store untouched —
for any bearer-token metadata and any collaborator behaviour. -/
theorem missing_credentials_propagated_no_backend_call
    (dns : String) (wf kube : Client) (env : Env) (toks : List String) (st : Store)
    (reqC : WorkflowTemplateCreateRequest) (reqG : WorkflowTemplateGetRequest)
    (reqL : WorkflowTemplateListRequest) (reqD : WorkflowTemplateDeleteRequest)
    (reqT : WorkflowTemplateCreateRequest) :
    GetWFClient ⟨dns, wf, kube, true⟩ env ⟨[], toks⟩ =
      ⟨.error "Client kubeconfig is not found", [], ⟨dns, wf, kube, true⟩⟩ ∧
    CreateWorkflowTemplate ⟨dns, wf, kube, true⟩ env ⟨[], toks⟩ st reqC =
      ⟨.error "Client kubeconfig is not found", [], [], st, ⟨dns, wf, kube, true⟩⟩ ∧
    GetWorkflowTemplate ⟨dns, wf, kube, true⟩ env ⟨[], toks⟩ st reqG =
      ⟨.error "Client kubeconfig is not found", [], [], st, ⟨dns, wf, kube, true⟩⟩ ∧
    ListWorkflowTemplates ⟨dns, wf, kube, true⟩ env ⟨[], toks⟩ st reqL =
      ⟨.error "Client kubeconfig is not found", [], [], st, ⟨dns, wf, kube, true⟩⟩ ∧
    DeleteWorkflowTemplate ⟨dns, wf, kube, true⟩ env ⟨[], toks⟩ st reqD =
      ⟨.error "Client kubeconfig is not found", [], [], st, ⟨dns, wf, kube, true⟩⟩ ∧
    LintWorkflowTemplate ⟨dns, wf, kube, true⟩ env ⟨[], toks⟩ st reqT =
      ⟨.error "Client kubeconfig is not found", [], [], st, ⟨dns, wf, kube, true⟩⟩ :=
  ⟨rfl, rfl, rfl, rfl, rfl, rfl⟩

/-- C8: `LintWorkflowTemplate` leaves the backend store of every
namespace exactly as it was, issues no write (create or delete) call to
the backend, and either fails or returns the request's template pointer
unchanged — for every server, collaborator behaviour, metadata, store
and request. -/
theorem lint_never_persists
    (s : WorkflowTemplateServer) (env : Env) (md : Metadata) (st : Store)
    (req : WorkflowTemplateCreateRequest) :
    (LintWorkflowTemplate s env md st req).store = st ∧
    ((LintWorkflowTemplate s env md st req).events.all fun e => !(isWriteEvent e)) = true ∧
    ((∃ e, (LintWorkflowTemplate s env md st req).result = .error e) ∨
      (LintWorkflowTemplate s env md st req).result = .ok req.template) := by
  unfold LintWorkflowTemplate
  rcases h : GetWFClient s env md with ⟨cls, lgs, srv⟩
  cases cls with
  | error e => exact ⟨rfl, rfl, .inl ⟨e, rfl⟩⟩
  | ok pr =>
    dsimp only
    rcases hv : env.validate st
        (if req.namespaceField ≠ "" then req.namespaceField else srv.defaultNamespace)
        req.template with _ | e
    · exact ⟨rfl, by simp [isWriteEvent], .inr rfl⟩
    · exact ⟨rfl, by simp [isWriteEvent], .inl ⟨e, rfl⟩⟩
